import Mathlib

/-!
Verification of the livego client core: the Sync Engine
(`src/core/component.ts`) and the Event Stream Channel
(`src/core/stream.ts`), with the framework hooks (`src/vue/index.ts`,
`src/react` hook) where claims concern them.

The embedding is shallow: JavaScript values (`any`) are a type parameter
`α`; the Transport collaborator (`LiveGoClient.update`) is a function
argument returning `Except ε` (its success payload carries the response
snapshot and effects); JS `Set`/`Map` iteration order is insertion order,
modelled by lists; a callback is an identity plus a flag saying whether its
invocation throws; every operation returns, next to its new state, a trace
of the observable events it produced (subscriber invocations, transport
requests, lifecycle callbacks, scheduled timers).
-/

namespace LiveGo

/-- Shape of `ComponentMemo` from `types.ts` (given in the README). -/
structure ComponentMemo (α : Type) where
  id : String
  name : String
  path : String
  method : String
  children : List String
  data : α
  deriving Repr, DecidableEq

/-- Shape of `ComponentSnapshot` from `types.ts`: state, memo, checksum. -/
structure ComponentSnapshot (α : Type) where
  state : α
  memo : ComponentMemo α
  checksum : String
  deriving Repr, DecidableEq

/-- Shape of `Effects` from `types.ts` (given in the README). -/
structure Effects (α : Type) where
  dirty : List String
  dispatches : List α
  redirects : Option String
  html : Option String
  deriving Repr, DecidableEq

/-- The `Update` tagged union sent to the server: `callMethod` or
`syncInput` (built in `component.ts` `call`/`set`/`batch`). -/
inductive Update (α : Type) where
  | callMethod (method : String) (params : List α)
  | syncInput (field : String) (value : α)
  deriving Repr, DecidableEq

/-- One element of the argument to `batch(operations)`:
`{ type: 'call', method, params? }` or `{ type: 'set', field, value }`.
`params` is optional in the source (`op.params || []`). -/
inductive BatchOp (α : Type) where
  | call (method : String) (params : Option (List α))
  | set (field : String) (value : α)
  deriving Repr, DecidableEq

/-- Success payload of `client.update`: `{ snapshot, effects }`. -/
structure UpdateResponse (α : Type) where
  snapshot : ComponentSnapshot α
  effects : Effects α
  deriving Repr, DecidableEq

/-- A subscriber callback: an opaque identity plus whether invoking it
throws.  JS `Set` membership is by reference, modelled by `id`. -/
structure Callback where
  id : Nat
  raises : Bool
  deriving Repr, DecidableEq

/-- One recorded subscriber notification: which callback was invoked and
with which `(state, effects)` pair. -/
structure Notif (α : Type) where
  cb : Nat
  state : α
  effects : Effects α
  deriving Repr, DecidableEq

/-- One recorded Transport request: the snapshot and updates passed to
`client.update`. -/
structure TransportCall (α : Type) where
  snapshot : ComponentSnapshot α
  updates : List (Update α)
  deriving Repr, DecidableEq

/-- The Transport collaborator: `client.update` as a pure function from
the request to a structured success or error. -/
def Client (α ε : Type) := ComponentSnapshot α → List (Update α) → Except ε (UpdateResponse α)

/-- State of `LiveGoComponent`: the current snapshot plus the `updateCallbacks`
set (insertion order, no duplicate identities). -/
structure Component (α : Type) where
  snapshot : ComponentSnapshot α
  updateCallbacks : List Callback
  deriving Repr, DecidableEq

/-- Read `getState()`: pure read of `snapshot.state`. -/
def Component.getState (c : Component α) : α := c.snapshot.state

/-- Read `getId()`: pure read of `snapshot.memo.id`. -/
def Component.getId (c : Component α) : String := c.snapshot.memo.id

/-- Read `getName()`: pure read of `snapshot.memo.name`. -/
def Component.getName (c : Component α) : String := c.snapshot.memo.name

/-- Read `getSnapshot()`: pure read of the whole snapshot. -/
def Component.getSnapshot (c : Component α) : ComponentSnapshot α := c.snapshot

/-- Dispatch `notifyUpdate(state, effects)`: iterate `updateCallbacks` in insertion
order; each invocation is wrapped in its own `try`/`catch`, so every
callback is invoked exactly once whether or not it raises, and nothing
propagates out. -/
def Component.notifyUpdate (c : Component α) (state : α) (effects : Effects α) :
    List (Notif α) :=
  c.updateCallbacks.map fun cb => ⟨cb.id, state, effects⟩

/-- Round trip `sendUpdates(updates)`: one `client.update` request with the
current snapshot; on success the snapshot is replaced wholesale by
`response.snapshot`, then `notifyUpdate(response.snapshot.state,
response.effects)` runs; on failure the rejection propagates before the
assignment, leaving the component untouched and notifying nobody.
Returns the component after the operation, the Transport requests issued,
and either the notifications delivered or the surfaced error. -/
def sendUpdates (client : Client α ε) (c : Component α) (updates : List (Update α)) :
    Component α × List (TransportCall α) × Except ε (List (Notif α)) :=
  match client c.snapshot updates with
  | Except.error e => (c, [⟨c.snapshot, updates⟩], Except.error e)
  | Except.ok r =>
      let c' : Component α := { c with snapshot := r.snapshot }
      (c', [⟨c.snapshot, updates⟩],
        Except.ok (c'.notifyUpdate r.snapshot.state r.effects))

/-- Operation `call(method, ...params)`: a one-element `callMethod` batch. -/
def Component.call (client : Client α ε) (c : Component α)
    (method : String) (params : List α) :
    Component α × List (TransportCall α) × Except ε (List (Notif α)) :=
  sendUpdates client c [Update.callMethod method params]

/-- Operation `set(field, value)`: a one-element `syncInput` batch. -/
def Component.set (client : Client α ε) (c : Component α)
    (field : String) (value : α) :
    Component α × List (TransportCall α) × Except ε (List (Notif α)) :=
  sendUpdates client c [Update.syncInput field value]

/-- The per-element translation inside `batch`: `op.type === 'call'`
becomes `callMethod` (with `op.params || []`), anything else `syncInput`. -/
def BatchOp.toUpdate : BatchOp α → Update α
  | BatchOp.call m ps => Update.callMethod m (ps.getD [])
  | BatchOp.set f v => Update.syncInput f v

/-- Operation `batch(operations)`: map each op to its `Update` preserving order and
send the whole list through one `sendUpdates`. -/
def Component.batch (client : Client α ε) (c : Component α)
    (ops : List (BatchOp α)) :
    Component α × List (TransportCall α) × Except ε (List (Notif α)) :=
  sendUpdates client c (ops.map BatchOp.toUpdate)

/-- A sequence of update round trips: run `sendUpdates` on each batch in
turn, logging each accepted response's snapshot; stop at the first
Transport failure (the caller sees the error). -/
def runRounds (client : Client α ε) (c : Component α) :
    List (List (Update α)) → Except ε (Component α × List (ComponentSnapshot α))
  | [] => Except.ok (c, [])
  | us :: rest =>
      let step := sendUpdates client c us
      match step.2.2 with
      | Except.error e => Except.error e
      | Except.ok _ =>
          match runRounds client step.1 rest with
          | Except.error e => Except.error e
          | Except.ok (c', log) => Except.ok (c', step.1.snapshot :: log)

/-! ## Event Stream Channel (`src/core/stream.ts`) -/

/-- Observable events emitted by channel operations, in order:
lifecycle callbacks from `options`, subscriber invocations (with the
event type whose registry slot they came from), and scheduled reconnect
timers (with their delay in ms). -/
inductive Ev where
  | onConnect
  | onDisconnect
  | onError
  | globalInvoke
  | invoke (cb : Nat) (eventType : String)
  | scheduleReconnect (delay : Nat)
  | openSource
  deriving Repr, DecidableEq

/-- Options `StreamOptions` after the constructor's defaulting
(`reconnect: true, reconnectInterval: 1000, ...options`): whether each
lifecycle callback is present, and the global `onEvent` handler as an
optional callback (with its raises flag). -/
structure StreamOptions where
  reconnect : Bool
  reconnectInterval : Nat
  hasOnConnect : Bool
  hasOnDisconnect : Bool
  hasOnError : Bool
  onEvent : Option Callback
  deriving Repr, DecidableEq

/-- State of `LiveGoStream`: its mutable fields — whether an `EventSource` handle
exists, the pending reconnect timer (with its delay), the per-type
`listeners` map (JS `Map`: key insertion order; each value a JS `Set`:
callback insertion order, no duplicate identities), and the
`reconnectAttempts` counter. -/
structure StreamState where
  eventSource : Bool
  reconnectTimeout : Option Nat
  listeners : List (String × List Callback)
  reconnectAttempts : Nat
  deriving Repr, DecidableEq

/-- Constant `maxReconnectAttempts` (private field, always 5). -/
def maxReconnectAttempts : Nat := 5

/-- Operation `disconnect()`: cancel any pending reconnect timer; if a handle
exists, close it, null it and invoke `onDisconnect`; clear all listeners. -/
def disconnect (opts : StreamOptions) (s : StreamState) : StreamState × List Ev :=
  ({ eventSource := false, reconnectTimeout := none, listeners := [],
     reconnectAttempts := s.reconnectAttempts },
   if s.eventSource ∧ opts.hasOnDisconnect then [Ev.onDisconnect] else [])

/-- Operation `connect()`: no-op if a handle already exists; otherwise open a new
`EventSource` and install the handlers.  Nothing else is touched — in
particular neither `reconnectAttempts` nor `listeners`. -/
def connect (s : StreamState) : StreamState × List Ev :=
  if s.eventSource then (s, [])
  else ({ s with eventSource := true }, [Ev.openSource])

/-- The `onopen` handler: reset `reconnectAttempts` to 0 and invoke the
connect callback. -/
def handleOpen (opts : StreamOptions) (s : StreamState) : StreamState × List Ev :=
  ({ s with reconnectAttempts := 0 },
   if opts.hasOnConnect then [Ev.onConnect] else [])

/-- The `onerror` handler: invoke the error callback; if reconnection is
enabled and `reconnectAttempts < maxReconnectAttempts`, increment the
counter and schedule a reconnect after
`reconnectInterval * 2 ^ (reconnectAttempts - 1)` (with the incremented
counter); otherwise `disconnect()`. -/
def handleError (opts : StreamOptions) (s : StreamState) : StreamState × List Ev :=
  let errEv : List Ev := if opts.hasOnError then [Ev.onError] else []
  if opts.reconnect ∧ s.reconnectAttempts < maxReconnectAttempts then
    let a := s.reconnectAttempts + 1
    let delay := opts.reconnectInterval * 2 ^ (a - 1)
    ({ s with reconnectAttempts := a, reconnectTimeout := some delay },
     errEv ++ [Ev.scheduleReconnect delay])
  else
    let d := disconnect opts s
    (d.1, errEv ++ d.2)

/-- The body of the scheduled reconnect timer:
`this.disconnect(); this.connect();`. -/
def fireReconnect (opts : StreamOptions) (s : StreamState) : StreamState × List Ev :=
  let d := disconnect opts s
  let c := connect d.1
  (c.1, d.2 ++ c.2)

/-- Invoke a list of subscriber callbacks with no surrounding
per-callback protection (`listeners.forEach((callback) => callback(...))`):
callbacks run in order up to and including the first one that raises;
the raise aborts the rest.  Returns the invocation events and whether a
raise escaped. -/
def invokeListeners (t : String) : List Callback → List Ev × Bool
  | [] => ([], false)
  | cb :: rest =>
      if cb.raises then ([Ev.invoke cb.id t], true)
      else
        let r := invokeListeners t rest
        (Ev.invoke cb.id t :: r.1, r.2)

/-- A `MessageEvent` as `handleMessage` sees it: `data` is the result of
`JSON.parse` (`none` when parsing throws), plus `lastEventId`. -/
structure MessageEvent where
  data : Option String
  lastEventId : String
  deriving Repr, DecidableEq

/-- The body of `handleMessage` inside its `try`: parse the payload (a
parse failure raises), build the `StreamEvent` with type
`eventType || 'message'`, invoke the global `onEvent` handler, then the
listeners registered for that type in order.  Returns the events emitted
and whether something raised (to be caught by the surrounding `catch`). -/
def handleMessageBody (opts : StreamOptions) (s : StreamState)
    (ev : MessageEvent) (eventType : Option String) : List Ev × Bool :=
  match ev.data with
  | none => ([], true)
  | some _ =>
      let t := eventType.getD "message"
      let g : List Ev × Bool :=
        match opts.onEvent with
        | none => ([], false)
        | some cb => ([Ev.globalInvoke], cb.raises)
      if g.2 then g
      else
        match (s.listeners.filter (fun p => p.1 = t)).head? with
        | none => (g.1, false)
        | some p =>
            let r := invokeListeners t p.2
            (g.1 ++ r.1, r.2)

/-- Dispatcher `handleMessage`: the body runs inside its try/catch,
so any raise — a parse failure or a raising handler — is caught and the
dispatcher returns normally.  No field of the stream is mutated. -/
def handleMessage (opts : StreamOptions) (s : StreamState)
    (ev : MessageEvent) (eventType : Option String) : StreamState × List Ev :=
  (s, (handleMessageBody opts s ev eventType).1)

/-- The six event names `setupEventListeners` registers
`addEventListener` handlers for. -/
def standardEventTypes : List String :=
  ["connected", "text-chunk", "progress", "notification",
   "generation-complete", "upload-complete"]

/-- An incoming push frame as the `EventSource` sees it: its optional
event name (`none` for an unnamed frame), its raw payload (already
split into parse result) and id. -/
structure Frame where
  name : Option String
  data : Option String
  lastEventId : String
  deriving Repr, DecidableEq

/-- Delivery by the `EventSource` to the handlers `connect`/`setupEventListeners`
installed: an unnamed frame (event type `message`) fires `onmessage`,
which calls `handleMessage` with no type; a frame named with one of the
six standard types fires that `addEventListener` handler, which calls
`handleMessage` with that type; any other named frame has no handler and
is dropped.  Nothing is delivered without a handle. -/
def dispatchFrame (opts : StreamOptions) (s : StreamState) (f : Frame) :
    StreamState × List Ev :=
  if ¬ s.eventSource then (s, [])
  else
    let t := f.name.getD "message"
    if t = "message" then
      handleMessage opts s ⟨f.data, f.lastEventId⟩ none
    else if t ∈ standardEventTypes then
      handleMessage opts s ⟨f.data, f.lastEventId⟩ (some t)
    else (s, [])

/-- Registration `on(event, callback)`: create the type's `Set` on first use, then add
the callback (JS `Set.add`: no effect if already present). -/
def streamOn (s : StreamState) (event : String) (cb : Callback) : StreamState :=
  if (s.listeners.filter (fun p => p.1 = event)).head?.isSome then
    { s with listeners := s.listeners.map fun p =>
        if p.1 = event ∧ (p.2.filter (fun c => c.id = cb.id)).head?.isNone
        then (p.1, p.2 ++ [cb]) else p }
  else
    { s with listeners := s.listeners ++ [(event, [cb])] }

/-- One consecutive connection error while disconnected reconnection has
not yet fired: the `onerror` handler runs, and if it scheduled a timer,
that timer then fires (`disconnect()` then `connect()`) with no
intervening successful open.  The round's trace is both parts in order. -/
def errorRound (opts : StreamOptions) (s : StreamState) : StreamState × List Ev :=
  let e := handleError opts s
  match e.1.reconnectTimeout with
  | some _ =>
      let f := fireReconnect opts e.1
      (f.1, e.2 ++ f.2)
  | none => e

/-- Iterate `errorRound` `n` times, returning the final state and the
list of per-round traces in order. -/
def errorRounds (opts : StreamOptions) (s : StreamState) :
    Nat → StreamState × List (List Ev)
  | 0 => (s, [])
  | n + 1 =>
      let r := errorRound opts s
      let rest := errorRounds opts r.1 n
      (rest.1, r.2 :: rest.2)

/-- The reconnect delays scheduled within a trace. -/
def scheduledDelays (evs : List Ev) : List Nat :=
  evs.filterMap fun e =>
    match e with
    | Ev.scheduleReconnect d => some d
    | _ => none

/-- The subscriber invocations within a trace. -/
def invokedSubscribers (evs : List Ev) : List (Nat × String) :=
  evs.filterMap fun e =>
    match e with
    | Ev.invoke cb t => some (cb, t)
    | _ => none

/-! ## Framework hooks (`src/vue/index.ts` and the React hook) -/

/-- The error a hook operation rejects with: the not-mounted guard error
(`new Error('LiveGo component not mounted')`, the spec's
`NotMountedError`), or a Transport error passed through. -/
inductive HookError (ε : Type) where
  | notMounted
  | transport (e : ε)
  deriving Repr, DecidableEq

/-- The hook-held fields that `call`/`set`/`batch` read and write: the
engine instance reference (`livegoRef.current` / `livego.value`, `none`
before any successful mount) and the last-observed error. -/
structure HookState (α ε : Type) where
  livego : Option (Component α)
  error : Option (HookError ε)
  deriving Repr, DecidableEq

/-- The shared wrapper both hooks use for `call`/`set`/`batch`: if no
instance is mounted, record and throw the not-mounted error without
touching Transport; otherwise clear the error, run the engine operation,
and on rejection record and rethrow it.  Returns the new hook state, the
Transport requests issued, and the outcome. -/
def hookRun (hs : HookState α ε)
    (op : Component α → Component α × List (TransportCall α) × Except ε (List (Notif α))) :
    HookState α ε × List (TransportCall α) × Except (HookError ε) Unit :=
  match hs.livego with
  | none => ({ hs with error := some HookError.notMounted }, [],
             Except.error HookError.notMounted)
  | some comp =>
      let r := op comp
      match r.2.2 with
      | Except.ok _ =>
          ({ livego := some r.1, error := none }, r.2.1, Except.ok ())
      | Except.error e =>
          ({ livego := some r.1, error := some (HookError.transport e) }, r.2.1,
           Except.error (HookError.transport e))

/-- The hooks' `call(method, ...params)`. -/
def hookCall (client : Client α ε) (hs : HookState α ε)
    (method : String) (params : List α) :
    HookState α ε × List (TransportCall α) × Except (HookError ε) Unit :=
  hookRun hs fun comp => Component.call client comp method params

/-- The hooks' `set(field, value)`. -/
def hookSet (client : Client α ε) (hs : HookState α ε)
    (field : String) (value : α) :
    HookState α ε × List (TransportCall α) × Except (HookError ε) Unit :=
  hookRun hs fun comp => Component.set client comp field value

/-- The hooks' `batch(operations)`. -/
def hookBatch (client : Client α ε) (hs : HookState α ε)
    (ops : List (BatchOp α)) :
    HookState α ε × List (TransportCall α) × Except (HookError ε) Unit :=
  hookRun hs fun comp => Component.batch client comp ops

/-! ## Helper lemmas -/

/-- Across any all-successful prefix of rounds, the component's snapshot
is the most recently accepted response snapshot and the subscriber set is
untouched. -/
theorem runRounds_ok (client : Client α ε) :
    ∀ (batches : List (List (Update α))) (c c' : Component α)
      (log : List (ComponentSnapshot α)),
      runRounds client c batches = Except.ok (c', log) →
      c'.snapshot = log.getLastD c.snapshot ∧
      c'.updateCallbacks = c.updateCallbacks := by
  intro batches
  induction batches with
  | nil =>
      intro c c' log h
      simp only [runRounds, Except.ok.injEq, Prod.mk.injEq] at h
      obtain ⟨h1, h2⟩ := h
      subst h1; subst h2
      simp [List.getLastD]
  | cons us rest ih =>
      intro c c' log h
      simp only [runRounds, sendUpdates] at h
      cases hc : client c.snapshot us with
      | error e =>
          simp only [hc] at h
          exact absurd h (by simp)
      | ok r =>
          simp only [hc] at h
          cases hr : runRounds client { c with snapshot := r.snapshot } rest with
          | error e =>
              simp only [hr] at h
              exact absurd h (by simp)
          | ok p =>
              obtain ⟨c'', log'⟩ := p
              simp only [hr, Except.ok.injEq, Prod.mk.injEq] at h
              obtain ⟨rfl, rfl⟩ := h
              obtain ⟨ih1, ih2⟩ := ih { c with snapshot := r.snapshot } c'' log' hr
              refine ⟨?_, ih2⟩
              rw [List.getLastD_cons]
              exact ih1

/-! ## Claims -/

/-- Witness fixtures: a concrete memo, two snapshots, effects, an
always-succeeding and an always-failing Transport, and a component with
two registered subscribers. -/
def wMemo : ComponentMemo Nat := ⟨"c-1", "Counter", "/c", "GET", [], 0⟩

def wSnap0 : ComponentSnapshot Nat := ⟨0, wMemo, "ck0"⟩

def wSnap1 : ComponentSnapshot Nat := ⟨42, wMemo, "ck1"⟩

def wEffects : Effects Nat := ⟨["count"], [], none, none⟩

def wClientOk : Client Nat Unit := fun _ _ => Except.ok ⟨wSnap1, wEffects⟩

def wClientErr : Client Nat Unit := fun _ _ => Except.error ()

def wComp : Component Nat := ⟨wSnap0, [⟨1, false⟩, ⟨2, false⟩]⟩

/-- C1: on every Transport success the snapshot is replaced wholesale by
the response snapshot (never a merge), one Transport request was issued,
and every currently-registered subscriber is notified in registration
order with `(newState, newEffects)`; across any sequence of successful
round trips `getState()` equals exactly the `state` field of the most
recently accepted response snapshot. -/
theorem claim_c1_state_replacement_and_notification
    (client : Client α ε) (c : Component α) :
    (∀ (us : List (Update α)) (r : UpdateResponse α),
        client c.snapshot us = Except.ok r →
        sendUpdates client c us =
          ({ snapshot := r.snapshot, updateCallbacks := c.updateCallbacks },
           [⟨c.snapshot, us⟩],
           Except.ok (c.updateCallbacks.map fun cb =>
             ⟨cb.id, r.snapshot.state, r.effects⟩))) ∧
    (∀ (batches : List (List (Update α))) (c' : Component α)
        (log : List (ComponentSnapshot α)),
        runRounds client c batches = Except.ok (c', log) →
        c'.getState = (log.getLastD c.snapshot).state) := by
  constructor
  · intro us r h
    simp [sendUpdates, h, Component.notifyUpdate]
  · intro batches c' log h
    have := (runRounds_ok client batches c c' log h).1
    simp [Component.getState, this]

/-- C1 witness: one concrete successful round trip. -/
theorem claim_c1_witness :
    sendUpdates wClientOk wComp [Update.syncInput "count" 5] =
      ({ snapshot := wSnap1, updateCallbacks := wComp.updateCallbacks },
       [⟨wSnap0, [Update.syncInput "count" 5]⟩],
       Except.ok [⟨1, 42, wEffects⟩, ⟨2, 42, wEffects⟩]) :=
  (claim_c1_state_replacement_and_notification wClientOk wComp).1
    [Update.syncInput "count" 5] ⟨wSnap1, wEffects⟩ rfl

/-- C2: when Transport rejects, `sendUpdates` leaves the component — in
particular its current snapshot — exactly as it was, surfaces the very
same error to the caller, and delivers no notification. -/
theorem claim_c2_failure_leaves_snapshot
    (client : Client α ε) (c : Component α) (us : List (Update α)) (e : ε)
    (h : client c.snapshot us = Except.error e) :
    sendUpdates client c us = (c, [⟨c.snapshot, us⟩], Except.error e) := by
  simp [sendUpdates, h]

/-- C2 witness: one concrete failing round trip. -/
theorem claim_c2_witness :
    sendUpdates wClientErr wComp [Update.callMethod "inc" []] =
      (wComp, [⟨wSnap0, [Update.callMethod "inc" []]⟩], Except.error ()) :=
  claim_c2_failure_leaves_snapshot wClientErr wComp
    [Update.callMethod "inc" []] () rfl

/-- C7: `batch(ops)` is `sendUpdates` on the order-preserving per-element
translation (`call` intents to `callMethod` with `params || []`, `set`
intents to `syncInput`), and issues exactly one Transport request
carrying the whole translated sequence. -/
theorem claim_c7_batch_single_round_trip
    (client : Client α ε) (c : Component α) (ops : List (BatchOp α)) :
    Component.batch client c ops = sendUpdates client c (ops.map BatchOp.toUpdate) ∧
    (Component.batch client c ops).2.1 = [⟨c.snapshot, ops.map BatchOp.toUpdate⟩] ∧
    (∀ (m : String) (ps : Option (List α)),
        BatchOp.toUpdate (BatchOp.call m ps) = Update.callMethod m (ps.getD [])) ∧
    (∀ (f : String) (v : α),
        BatchOp.toUpdate (BatchOp.set f v) = Update.syncInput f v) := by
  refine ⟨rfl, ?_, fun m ps => rfl, fun f v => rfl⟩
  unfold Component.batch sendUpdates
  cases client c.snapshot (ops.map BatchOp.toUpdate) <;> rfl

/-- C8: with no mounted instance, the hooks' `call`, `set` and `batch`
all reject with the not-mounted error, record it, and issue zero
Transport requests. -/
theorem claim_c8_not_mounted_no_transport
    (client : Client α ε) (hs : HookState α ε) (h : hs.livego = none)
    (m : String) (ps : List α) (f : String) (v : α) (ops : List (BatchOp α)) :
    hookCall client hs m ps =
      ({ hs with error := some HookError.notMounted }, [],
       Except.error HookError.notMounted) ∧
    hookSet client hs f v =
      ({ hs with error := some HookError.notMounted }, [],
       Except.error HookError.notMounted) ∧
    hookBatch client hs ops =
      ({ hs with error := some HookError.notMounted }, [],
       Except.error HookError.notMounted) := by
  refine ⟨?_, ?_, ?_⟩ <;> simp [hookCall, hookSet, hookBatch, hookRun, h]

/-- C8 witness fixture: the hook state before any successful mount. -/
def wHookUnmounted : HookState Nat Unit := ⟨none, none⟩

/-- C8 witness: the three operations on the concrete unmounted hook. -/
theorem claim_c8_witness :
    hookCall wClientOk wHookUnmounted "inc" [] =
      (⟨none, some HookError.notMounted⟩, [], Except.error HookError.notMounted) ∧
    hookSet wClientOk wHookUnmounted "count" 3 =
      (⟨none, some HookError.notMounted⟩, [], Except.error HookError.notMounted) ∧
    hookBatch wClientOk wHookUnmounted [BatchOp.set "count" 3] =
      (⟨none, some HookError.notMounted⟩, [], Except.error HookError.notMounted) :=
  claim_c8_not_mounted_no_transport wClientOk wHookUnmounted rfl
    "inc" [] "count" 3 [BatchOp.set "count" 3]

/-- C6: a push frame whose payload fails JSON decoding is dropped:
`handleMessage` returns normally (the parse raise is caught by its own
`try`/`catch`), the stream state — in particular `reconnectAttempts` —
is untouched, and the trace is empty: no error callback, no subscriber,
no global handler.  The same holds for the full `EventSource` delivery
of such a frame under any event name. -/
theorem claim_c6_malformed_frame_dropped
    (opts : StreamOptions) (s : StreamState) (nm t : Option String)
    (eid : String) :
    handleMessage opts s ⟨none, eid⟩ t = (s, []) ∧
    dispatchFrame opts s ⟨nm, none, eid⟩ = (s, []) := by
  have h1 : ∀ u, handleMessage opts s ⟨none, eid⟩ u = (s, []) := fun _ => rfl
  refine ⟨h1 t, ?_⟩
  unfold dispatchFrame
  split
  · rfl
  · dsimp only
    split
    · exact h1 none
    · split
      · exact h1 _
      · rfl

/-- C3: starting from a freshly opened channel (retry counter 0) with
reconnection enabled, the k-th consecutive connection error for k = 1..5
schedules exactly one reconnect, after `reconnectInterval * 2 ^ (k-1)`;
the 6th consecutive error schedules none and leaves the channel with no
handle and no pending timer (`Disconnected` until an explicit
`connect()`). -/
theorem claim_c3_backoff_schedule
    (opts : StreamOptions) (h : opts.reconnect = true)
    (ls : List (String × List Callback)) :
    (errorRounds opts ⟨true, none, ls, 0⟩ 6).2.map scheduledDelays =
      [[opts.reconnectInterval * 1], [opts.reconnectInterval * 2],
       [opts.reconnectInterval * 4], [opts.reconnectInterval * 8],
       [opts.reconnectInterval * 16], []] ∧
    (errorRounds opts ⟨true, none, ls, 0⟩ 6).1.eventSource = false ∧
    (errorRounds opts ⟨true, none, ls, 0⟩ 6).1.reconnectTimeout = none := by
  cases hE : opts.hasOnError <;> cases hD : opts.hasOnDisconnect <;>
    simp [errorRounds, errorRound, handleError, fireReconnect, disconnect,
      connect, maxReconnectAttempts, scheduledDelays, h, hE, hD,
      List.filterMap_append, pow_succ]

/-- C3 witness fixture: stream options with defaults
(`reconnect: true, reconnectInterval: 1000`) and no optional callbacks. -/
def wStreamOpts : StreamOptions := ⟨true, 1000, false, false, false, none⟩

/-- C3 witness: the six consecutive error rounds on concrete options. -/
theorem claim_c3_witness :
    (errorRounds wStreamOpts ⟨true, none, [], 0⟩ 6).2.map scheduledDelays =
      [[1000 * 1], [1000 * 2], [1000 * 4], [1000 * 8], [1000 * 16], []] ∧
    (errorRounds wStreamOpts ⟨true, none, [], 0⟩ 6).1.eventSource = false ∧
    (errorRounds wStreamOpts ⟨true, none, [], 0⟩ 6).1.reconnectTimeout = none :=
  claim_c3_backoff_schedule wStreamOpts rfl []

/-- Bare `forEach` invocation of all-non-raising callbacks runs every
callback in order and lets nothing escape. -/
theorem invokeListeners_no_raise (t : String) :
    ∀ (cbs : List Callback), (∀ cb ∈ cbs, cb.raises = false) →
      invokeListeners t cbs = (cbs.map fun cb => Ev.invoke cb.id t, false) := by
  intro cbs
  induction cbs with
  | nil => intro _; rfl
  | cons cb rest ih =>
      intro h
      have hcb : cb.raises = false := h cb (by simp)
      have hrest := ih fun x hx => h x (by simp [hx])
      simp [invokeListeners, hcb, hrest]

/-- Bare `forEach` invocation aborts at the first raising callback: the
non-raising prefix and the raiser run, everything after is skipped, and
the raise escapes to the caller. -/
theorem invokeListeners_raise (t : String) :
    ∀ (pre : List Callback) (cb : Callback) (post : List Callback),
      (∀ x ∈ pre, x.raises = false) → cb.raises = true →
      invokeListeners t (pre ++ cb :: post) =
        ((pre ++ [cb]).map fun x => Ev.invoke x.id t, true) := by
  intro pre
  induction pre with
  | nil => intro cb post _ hcb; simp [invokeListeners, hcb]
  | cons x rest ih =>
      intro cb post h hcb
      have hx : x.raises = false := h x (by simp)
      have hrest := ih cb post (fun y hy => h y (by simp [hy])) hcb
      simp [invokeListeners, hx, hrest]

/-- Every subscriber invocation in a `handleMessage` dispatch is under
the type slot `eventType || 'message'`. -/
theorem handleMessage_invoke_types (opts : StreamOptions) (s : StreamState)
    (ev : MessageEvent) (t : Option String) (p : Nat × String)
    (hp : p ∈ invokedSubscribers (handleMessage opts s ev t).2) :
    p.2 = t.getD "message" := by
  unfold handleMessage handleMessageBody at hp
  cases hd : ev.data with
  | none => simp [hd, invokedSubscribers] at hp
  | some d =>
      rw [hd] at hp
      dsimp only at hp
      have hinv : ∀ (cbs : List Callback) (q : Nat × String),
          q ∈ invokedSubscribers (invokeListeners (t.getD "message") cbs).1 →
          q.2 = t.getD "message" := by
        intro cbs
        induction cbs with
        | nil => intro q hq; simp [invokeListeners, invokedSubscribers] at hq
        | cons cb rest ih =>
            intro q hq
            cases hr : cb.raises <;>
              simp [invokeListeners, hr, invokedSubscribers,
                List.filterMap_cons] at hq
            · rcases hq with hq | hq
              · rw [hq]
              · exact ih q (by simpa [invokedSubscribers] using hq)
            · rw [hq]
      cases ho : opts.onEvent with
      | none =>
          rw [ho] at hp
          dsimp only at hp
          cases hh : (s.listeners.filter fun q => q.1 = t.getD "message").head? with
          | none => rw [hh] at hp; simp [invokedSubscribers] at hp
          | some q =>
              rw [hh] at hp
              exact hinv q.2 p (by simpa [invokedSubscribers] using hp)
      | some cb =>
          rw [ho] at hp
          dsimp only at hp
          cases hr : cb.raises with
          | true => simp [hr, invokedSubscribers] at hp
          | false =>
              simp only [hr, if_false, Bool.false_eq_true] at hp
              cases hh : (s.listeners.filter fun q => q.1 = t.getD "message").head? with
              | none => rw [hh] at hp; simp [invokedSubscribers] at hp
              | some q =>
                  rw [hh] at hp
                  refine hinv q.2 p ?_
                  simpa [invokedSubscribers, List.filterMap_append] using hp

/-- A dispatch on a stream whose listener registry is empty invokes no
subscriber (at most the global handler runs). -/
theorem handleMessage_no_listeners (opts : StreamOptions) (s : StreamState)
    (hls : s.listeners = []) (ev : MessageEvent) (t : Option String) :
    invokedSubscribers (handleMessage opts s ev t).2 = [] := by
  obtain ⟨d, eid⟩ := ev
  cases d with
  | none => rfl
  | some x =>
      cases ho : opts.onEvent with
      | none => simp [handleMessage, handleMessageBody, ho, hls, invokedSubscribers]
      | some cb =>
          cases hr : cb.raises <;>
            simp [handleMessage, handleMessageBody, ho, hr, hls, invokedSubscribers]

/-- Delivery on a stream with an empty listener registry
invokes no subscriber. -/
theorem dispatchFrame_no_listeners (opts : StreamOptions) (s : StreamState)
    (hls : s.listeners = []) (f : Frame) :
    invokedSubscribers (dispatchFrame opts s f).2 = [] := by
  unfold dispatchFrame
  split
  · rfl
  · dsimp only
    split
    · exact handleMessage_no_listeners opts s hls _ _
    · split
      · exact handleMessage_no_listeners opts s hls _ _
      · rfl

/-- C4 counterexample fixture: a stream with two `message` subscribers,
the first of which raises. -/
def c4sRaise : StreamState :=
  ⟨true, none, [("message", [⟨1, true⟩, ⟨2, false⟩])], 0⟩

/-- C4 counterexample: in Channel dispatch the raising first subscriber
aborts the `forEach` — subscriber 2 of the same dispatch is never
invoked, contradicting the claim that every other subscriber is still
invoked exactly once. -/
theorem claim_c4_counterexample :
    invokedSubscribers
        (handleMessage wStreamOpts c4sRaise ⟨some "x", ""⟩ none).2 =
      [(1, "message")] ∧
    (2, "message") ∉ invokedSubscribers
        (handleMessage wStreamOpts c4sRaise ⟨some "x", ""⟩ none).2 := by
  decide

/-- C4 amended: in Engine dispatch (`notifyUpdate`) each callback runs
in its own `try`/`catch`, so every registered subscriber is invoked
exactly once, in order, whether or not any of them raises.  In Channel
dispatch the exception is caught only by `handleMessage`'s surrounding
`try`/`catch` — it does not escape the dispatcher and no stream state
changes — but the bare `forEach` stops at the first raising subscriber:
the non-raising prefix and the raiser run, later subscribers are
skipped. -/
theorem claim_c4_exception_containment {α : Type} :
    (∀ (c : Component α) (st : α) (ef : Effects α),
        Component.notifyUpdate c st ef =
          c.updateCallbacks.map fun cb => ⟨cb.id, st, ef⟩) ∧
    (∀ (opts : StreamOptions) (s : StreamState) (ev : MessageEvent)
        (t : Option String), (handleMessage opts s ev t).1 = s) ∧
    (∀ (t : String) (cbs : List Callback), (∀ cb ∈ cbs, cb.raises = false) →
        invokeListeners t cbs = (cbs.map fun cb => Ev.invoke cb.id t, false)) ∧
    (∀ (t : String) (pre : List Callback) (cb : Callback) (post : List Callback),
        (∀ x ∈ pre, x.raises = false) → cb.raises = true →
        invokeListeners t (pre ++ cb :: post) =
          ((pre ++ [cb]).map fun x => Ev.invoke x.id t, true)) :=
  ⟨fun _ _ _ => rfl, fun _ _ _ _ => rfl,
   invokeListeners_no_raise, invokeListeners_raise⟩

/-- C4 witness: the abort-at-first-raiser shape on a concrete dispatch
list. -/
theorem claim_c4_witness :
    invokeListeners "message" [⟨1, true⟩, ⟨2, false⟩] =
      ([Ev.invoke 1 "message"], true) := by
  have h := (claim_c4_exception_containment (α := Nat)).2.2.2 "message"
    [] ⟨1, true⟩ [⟨2, false⟩] (by simp) rfl
  simpa using h

/-- C5 counterexample fixture: a stream that has already accumulated
three consecutive failed reconnect attempts and one subscriber. -/
def c5sPrior : StreamState := ⟨true, none, [("progress", [⟨7, false⟩])], 3⟩

/-- C5 counterexample: after `disconnect()` then `connect()` the
retry-attempt counter is still 3, not 0 — neither call resets it. -/
theorem claim_c5_counterexample :
    (connect (disconnect wStreamOpts c5sPrior).1).1.reconnectAttempts ≠ 0 := by
  decide

/-- C5 amended: `disconnect()` followed by `connect()` yields a fresh
handle with no pending timer and an empty per-type subscriber registry —
subscribers registered before the disconnect never fire afterwards
unless re-registered — and the disconnect callback fires exactly once
iff a handle existed (and the callback is registered); but the
retry-attempt counter is carried over unchanged, being reset to 0 only
when the connection's open event fires. -/
theorem claim_c5_disconnect_connect
    (opts : StreamOptions) (s : StreamState) :
    (connect (disconnect opts s).1).1 =
      ⟨true, none, [], s.reconnectAttempts⟩ ∧
    (handleOpen opts (connect (disconnect opts s).1).1).1.reconnectAttempts = 0 ∧
    (disconnect opts s).2.count Ev.onDisconnect =
      (if s.eventSource ∧ opts.hasOnDisconnect then 1 else 0) ∧
    (∀ f : Frame, invokedSubscribers
        (dispatchFrame opts (connect (disconnect opts s).1).1 f).2 = []) := by
  have hstate : (connect (disconnect opts s).1).1 =
      ⟨true, none, [], s.reconnectAttempts⟩ := by
    simp [disconnect, connect]
  refine ⟨hstate, by rw [hstate]; rfl, ?_, ?_⟩
  · rcases Decidable.em (s.eventSource ∧ opts.hasOnDisconnect) with hc | hc <;>
      simp [disconnect, hc]
  · intro f
    rw [hstate]
    exact dispatchFrame_no_listeners opts _ rfl f

/-- C9: a frame named with one of the six hardcoded standard types is
delivered to `handleMessage` under that type; an unnamed frame is
delivered under type `message`; a frame with any other name (except the
reserved default name `message` itself, which the platform treats as
unnamed) has no registered handler and is dropped; consequently every
subscriber invocation ever produced by delivery is under one of the six
types or `message`, so an `on()` subscriber for any other type never
fires. -/
theorem claim_c9_hardcoded_event_types
    (opts : StreamOptions) (s : StreamState) (f : Frame) :
    (∀ t, f.name = some t → t ∈ standardEventTypes → s.eventSource = true →
        dispatchFrame opts s f =
          handleMessage opts s ⟨f.data, f.lastEventId⟩ (some t)) ∧
    (f.name = none → s.eventSource = true →
        dispatchFrame opts s f =
          handleMessage opts s ⟨f.data, f.lastEventId⟩ none) ∧
    (∀ t, f.name = some t → t ∉ standardEventTypes → t ≠ "message" →
        dispatchFrame opts s f = (s, [])) ∧
    (∀ p, p ∈ invokedSubscribers (dispatchFrame opts s f).2 →
        p.2 ∈ standardEventTypes ∨ p.2 = "message") := by
  refine ⟨?_, ?_, ?_, ?_⟩
  · intro t h1 h2 h3
    simp only [standardEventTypes, List.mem_cons, List.not_mem_nil,
      or_false] at h2
    rcases h2 with rfl | rfl | rfl | rfl | rfl | rfl <;>
      simp [dispatchFrame, h1, h3, standardEventTypes]
  · intro h1 h2
    simp [dispatchFrame, h1, h2]
  · intro t h1 h2 h3
    simp [dispatchFrame, h1, h2, h3]
  · intro p hp
    unfold dispatchFrame at hp
    split at hp
    · simp [invokedSubscribers] at hp
    · dsimp only at hp
      split at hp
      · exact Or.inr (handleMessage_invoke_types opts s _ none p hp)
      · split at hp
        · rename_i hmem
          exact Or.inl (by
            have := handleMessage_invoke_types opts s _ (some _) p hp
            simpa [this] using hmem)
        · simp [invokedSubscribers] at hp

/-- C9 witness fixture: a connected stream with one `progress`
subscriber. -/
def wStreamState : StreamState := ⟨true, none, [("progress", [⟨5, false⟩])], 0⟩

/-- C9 witness: a concrete `progress`-named frame is delivered under
`progress`. -/
theorem claim_c9_witness :
    dispatchFrame wStreamOpts wStreamState ⟨some "progress", some "d", ""⟩ =
      handleMessage wStreamOpts wStreamState ⟨some "d", ""⟩ (some "progress") :=
  (claim_c9_hardcoded_event_types wStreamOpts wStreamState
    ⟨some "progress", some "d", ""⟩).1 "progress" rfl (by decide) rfl

/-- C10: while retries remain, the `onerror` handler keeps the handle
and schedules the timer whose body is `disconnect()` then `connect()`;
when that timer fires, the disconnect callback (when registered) fires
exactly once since a handle existed, and the reopened channel's per-type
subscriber registry is empty, so no previously registered subscriber is
ever invoked by frames delivered after the automatic reconnect. -/
theorem claim_c10_auto_reconnect_clears_subscribers
    (opts : StreamOptions) (s : StreamState)
    (h1 : opts.reconnect = true)
    (h2 : s.reconnectAttempts < maxReconnectAttempts)
    (h3 : s.eventSource = true) :
    (handleError opts s).1.eventSource = true ∧
    (handleError opts s).1.reconnectTimeout =
      some (opts.reconnectInterval * 2 ^ s.reconnectAttempts) ∧
    fireReconnect opts (handleError opts s).1 =
      ((connect (disconnect opts (handleError opts s).1).1).1,
       (disconnect opts (handleError opts s).1).2 ++
         (connect (disconnect opts (handleError opts s).1).1).2) ∧
    (fireReconnect opts (handleError opts s).1).1.listeners = [] ∧
    (fireReconnect opts (handleError opts s).1).1.eventSource = true ∧
    (fireReconnect opts (handleError opts s).1).2.count Ev.onDisconnect =
      (if opts.hasOnDisconnect then 1 else 0) ∧
    (∀ f : Frame, invokedSubscribers
        (dispatchFrame opts (fireReconnect opts (handleError opts s).1).1 f).2 =
      []) := by
  have herr : (handleError opts s).1 =
      ⟨s.eventSource, some (opts.reconnectInterval * 2 ^ s.reconnectAttempts),
       s.listeners, s.reconnectAttempts + 1⟩ := by
    simp [handleError, h1, h2]
  have hfire : (fireReconnect opts (handleError opts s).1).1 =
      ⟨true, none, [], s.reconnectAttempts + 1⟩ := by
    rw [fireReconnect]
    simp [disconnect, connect, herr]
  refine ⟨by rw [herr]; exact h3, by rw [herr], rfl, by rw [hfire],
    by rw [hfire], ?_, ?_⟩
  · rw [fireReconnect]
    dsimp only
    rw [List.count_append]
    have hdis : (disconnect opts (handleError opts s).1).2 =
        (if opts.hasOnDisconnect then [Ev.onDisconnect] else []) := by
      simp [disconnect, herr, h3]
    have hcon : (connect (disconnect opts (handleError opts s).1).1).2 =
        [Ev.openSource] := by
      simp [disconnect, connect]
    rw [hdis, hcon]
    cases hD : opts.hasOnDisconnect <;> simp
  · intro f
    rw [hfire]
    exact dispatchFrame_no_listeners opts _ rfl f

/-- C10 witness: one concrete error on a connected stream with a
subscriber, then the scheduled timer fires; the reopened channel has an
empty registry. -/
theorem claim_c10_witness :
    (fireReconnect wStreamOpts (handleError wStreamOpts wStreamState).1).1.listeners =
      [] :=
  (claim_c10_auto_reconnect_clears_subscribers wStreamOpts wStreamState
    rfl (by decide) rfl).2.2.2.1

end LiveGo
